import Mathlib

/-!
Verification of the access-grant lifecycle and verified-download session
state machine of the document access platform.

The embedding models dates as integers (milliseconds since epoch, the
value of Date.getTime in the source) and passes the current instant
explicitly as a parameter called now.  Nullable columns become Option
types.  JavaScript truthiness on optional strings (null and the empty
string are both falsy) is modelled by the helper strTruthy.
-/

namespace DocAccess

/-- AccessStatus enum of the access-grant entity. -/
inductive AccessStatus where
  | PENDING
  | APPROVED
  | DENIED
  | REVOKED
deriving DecidableEq, Repr

/-- VisibilityStatus enum of the document-file entity. -/
inductive VisibilityStatus where
  | PUBLIC
  | HIDDEN
deriving DecidableEq, Repr

/-- DownloadAction enum of the download-audit-log entity. -/
inductive DownloadAction where
  | DOWNLOAD_INITIATED
  | DOWNLOAD_COMPLETED
  | DOWNLOAD_FAILED
  | SESSION_CREATED
  | SESSION_EXPIRED
  | OTP_REQUESTED
  | OTP_VERIFIED
  | OTP_FAILED
  | VERIFICATION_FAILED
deriving DecidableEq, Repr

/-- The four HTTP error classes thrown by the services:
NotFoundException, BadRequestException, ConflictException,
ForbiddenException. -/
inductive ApiError where
  | NotFound
  | BadRequest
  | Conflict
  | Forbidden
deriving DecidableEq, Repr

/-- Document-file entity, restricted to the fields the access-grant
services read: identity, owning document lookups, public visibility and
soft deletion. -/
structure DocumentFile where
  id : String
  ownerId : String
  filename : String
  visibilityStatus : VisibilityStatus
  deletedAt : Option Int
deriving DecidableEq, Repr

/-- Access-grant entity.  All nullable columns are Option; dates are
integer milliseconds. -/
structure AccessGrant where
  id : String
  documentId : String
  requestorEmail : String
  requestorName : Option String
  requestorOrganization : Option String
  requestPurpose : String
  accessToken : Option String
  status : AccessStatus
  expiryDate : Option Int
  denialReason : Option String
  approvalMessage : Option String
  revocationMessage : Option String
  actionCompletedAt : Option Int
  otp : Option String
  otpExpiryDate : Option Int
  otpAttempts : Nat
  isVerified : Bool
  verifiedAt : Option Int
  downloadSessionToken : Option String
  lastActivityAt : Option Int
  requestedAt : Int
deriving DecidableEq, Repr

/-- Download-audit-log entity (the fields written by createAuditLog). -/
structure DownloadAuditLog where
  accessGrantId : String
  documentId : String
  requestorEmail : String
  action : DownloadAction
  details : String
  ipAddress : Option String
  userAgent : Option String
  bytesDownloaded : Option Nat
deriving DecidableEq, Repr

/-- JavaScript truthiness of an optional string: null and the empty
string are falsy, every other string is truthy. -/
def strTruthy : Option String → Bool
  | none => false
  | some s => !(s == "")

/-- JavaScript test (d && d < now) on an optional date. -/
def optDateBefore : Option Int → Int → Bool
  | none, _ => false
  | some d, now => decide (d < now)

namespace AccessGrant

/-- Source isActive: false unless status is APPROVED; false when an
expiry date is set and lies strictly in the past; true otherwise. -/
def isActive (g : AccessGrant) (now : Int) : Bool :=
  if g.status != AccessStatus.APPROVED then false
  else if optDateBefore g.expiryDate now then false
  else true

/-- Source isExpired: true exactly when status is APPROVED and an expiry
date is set and lies strictly in the past.  DENIED and REVOKED grants
are never expired by this predicate. -/
def isExpired (g : AccessGrant) (now : Int) : Bool :=
  if g.status != AccessStatus.APPROVED then false
  else if optDateBefore g.expiryDate now then true
  else false

/-- Source isOtpExpired: true when no otpExpiryDate is set, or it is
strictly in the past. -/
def isOtpExpired (g : AccessGrant) (now : Int) : Bool :=
  match g.otpExpiryDate with
  | none => true
  | some d => decide (d < now)

/-- Source canRequestOtp: status APPROVED and not expired. -/
def canRequestOtp (g : AccessGrant) (now : Int) : Bool :=
  if g.status != AccessStatus.APPROVED then false
  else if g.isExpired now then false
  else true

/-- Source canVerifyOtp: an OTP is present (truthy, so the empty string
cleared after verification does not count), it is not expired, and
fewer than 3 attempts were made. -/
def canVerifyOtp (g : AccessGrant) (now : Int) : Bool :=
  if !(strTruthy g.otp) then false
  else if g.isOtpExpired now then false
  else if g.otpAttempts >= 3 then false
  else true

/-- Source isSessionActive: false unless isVerified; false when the
grant is expired; when lastActivityAt is set, active exactly when the
inactivity time is under 60 minutes (the source divides by 60000 and
compares with 60, equivalent to comparing the difference with
3600000 ms); when lastActivityAt is null the source returns true. -/
def isSessionActive (g : AccessGrant) (now : Int) : Bool :=
  if !g.isVerified then false
  else if g.isExpired now then false
  else
    match g.lastActivityAt with
    | some t => decide (now - t < 60 * 60 * 1000)
    | none => true

end AccessGrant

/-- Modelled from the claim wording for comparison: a session is active
iff isVerified, the grant is not expired, lastActivityAt is present,
and the inactivity time is strictly under 60 minutes. -/
def isSessionActiveSpec (g : AccessGrant) (now : Int) : Bool :=
  g.isVerified && !(g.isExpired now) &&
    (match g.lastActivityAt with
     | some t => decide (now - t < 60 * 60 * 1000)
     | none => false)

/-- Amended session predicate: same as the claim except that a missing
lastActivityAt leaves the session active (the source returns true in
that case). -/
def isSessionActiveAmended (g : AccessGrant) (now : Int) : Bool :=
  g.isVerified && !(g.isExpired now) &&
    (match g.lastActivityAt with
     | some t => decide (now - t < 60 * 60 * 1000)
     | none => true)

/-- Service constants of the verification-download service. -/
def OTP_VALIDITY_MINUTES : Nat := 15

/-- Maximum OTP attempts before the Conflict lockout. -/
def OTP_MAX_ATTEMPTS : Nat := 3

/-- Inactivity timeout of a verified download session, in minutes. -/
def SESSION_TIMEOUT_MINUTES : Nat := 60

/-- Data carried by submitAccessRequest (the submit DTO). -/
structure SubmitAccessRequestDto where
  requestorEmail : String
  requestorName : Option String
  requestorOrganization : Option String
  requestPurpose : String
deriving DecidableEq, Repr

/-- Repository lookup used by the external-requestor service: the
document must match the id, be publicly visible and not soft-deleted. -/
def findPublicDocument (docs : List DocumentFile) (documentId : String) :
    Option DocumentFile :=
  docs.find? (fun d =>
    d.id == documentId &&
    d.visibilityStatus == VisibilityStatus.PUBLIC &&
    d.deletedAt == none)

/-- Duplicate-pending lookup of submitAccessRequest: a grant for the
same document and requestor email whose status is PENDING. -/
def hasPendingRequest (grants : List AccessGrant) (documentId : String)
    (requestorEmail : String) : Bool :=
  grants.any (fun g =>
    g.documentId == documentId &&
    g.requestorEmail == requestorEmail &&
    g.status == AccessStatus.PENDING)

/-- Source submitAccessRequest.  The fresh UUID produced by uuidv4 is
passed in as requestUUID (nondeterminism made explicit).  Returns the
created grant together with the request UUID surfaced to the
requestor; the repository-create defaults of the entity fill the
remaining columns. -/
def submitAccessRequest (docs : List DocumentFile) (grants : List AccessGrant)
    (documentId : String) (dto : SubmitAccessRequestDto)
    (newId : String) (requestUUID : String) (now : Int) :
    Except ApiError (AccessGrant × String) :=
  match findPublicDocument docs documentId with
  | none => .error .NotFound
  | some _ =>
    if hasPendingRequest grants documentId dto.requestorEmail then
      .error .Conflict
    else
      let requestorName :=
        if strTruthy dto.requestorName then dto.requestorName
        else some dto.requestorEmail
      let g : AccessGrant :=
        { id := newId
          documentId := documentId
          requestorEmail := dto.requestorEmail
          requestorName := requestorName
          requestorOrganization := dto.requestorOrganization
          requestPurpose := dto.requestPurpose
          accessToken := some requestUUID
          status := AccessStatus.PENDING
          expiryDate := none
          denialReason := none
          approvalMessage := none
          revocationMessage := none
          actionCompletedAt := none
          otp := none
          otpExpiryDate := none
          otpAttempts := 0
          isVerified := false
          verifiedAt := none
          downloadSessionToken := none
          lastActivityAt := none
          requestedAt := now }
      .ok (g, requestUUID)

/-- Source approveAccessRequest.  The document and grant repository
lookups are passed in as Options (none models a lookup miss).  The
first component is the persisted grant state after the call, the
second the outcome.  The expiry date parsed from the DTO and the
current instant are explicit. -/
def approveAccessRequest (doc? : Option DocumentFile)
    (g? : Option AccessGrant) (expiryDate now : Int) (msg : Option String) :
    Option AccessGrant × Except ApiError AccessGrant :=
  match doc? with
  | none => (g?, .error .NotFound)
  | some _ =>
    match g? with
    | none => (none, .error .NotFound)
    | some g =>
      if g.status != AccessStatus.PENDING then (some g, .error .BadRequest)
      else if expiryDate <= now then (some g, .error .BadRequest)
      else
        let g' : AccessGrant :=
          { g with
            status := AccessStatus.APPROVED
            expiryDate := some expiryDate
            approvalMessage := if strTruthy msg then msg else g.approvalMessage
            actionCompletedAt := some now }
        (some g', .ok g')

/-- Source denyAccessRequest: grant must be PENDING, then status becomes
DENIED with optional denial reason and actionCompletedAt set. -/
def denyAccessRequest (doc? : Option DocumentFile)
    (g? : Option AccessGrant) (now : Int) (reason : Option String) :
    Option AccessGrant × Except ApiError AccessGrant :=
  match doc? with
  | none => (g?, .error .NotFound)
  | some _ =>
    match g? with
    | none => (none, .error .NotFound)
    | some g =>
      if g.status != AccessStatus.PENDING then (some g, .error .BadRequest)
      else
        let g' : AccessGrant :=
          { g with
            status := AccessStatus.DENIED
            denialReason := if strTruthy reason then reason else g.denialReason
            actionCompletedAt := some now }
        (some g', .ok g')

/-- Source revokeAccessGrant: no status precondition at all; any found
grant gets status REVOKED, optional revocation message and
actionCompletedAt.  No other field is written. -/
def revokeAccessGrant (doc? : Option DocumentFile)
    (g? : Option AccessGrant) (now : Int) (msg : Option String) :
    Option AccessGrant × Except ApiError Unit :=
  match doc? with
  | none => (g?, .error .NotFound)
  | some _ =>
    match g? with
    | none => (none, .error .NotFound)
    | some g =>
      let g' : AccessGrant :=
        { g with
          status := AccessStatus.REVOKED
          revocationMessage := if strTruthy msg then msg else g.revocationMessage
          actionCompletedAt := some now }
      (some g', .ok ())

/-- Per-grant effect of bulkRevokeAccess: the source selects the grants
of the document with status APPROVED, keeps those that are not expired,
and revokes each of them; every other grant row is untouched. -/
def bulkRevokeStep (documentId : String) (now : Int) (msg : Option String)
    (g : AccessGrant) : AccessGrant :=
  if g.documentId == documentId && g.status == AccessStatus.APPROVED &&
      !(g.isExpired now) then
    { g with
      status := AccessStatus.REVOKED
      revocationMessage := if strTruthy msg then msg else g.revocationMessage
      actionCompletedAt := some now }
  else g

/-- Source bulkRevokeAccess over the whole grant table, expressed as a
map of the per-grant step (equivalent to the select-filter-save loop of
the source). -/
def bulkRevokeAccess (doc? : Option DocumentFile) (grants : List AccessGrant)
    (documentId : String) (now : Int) (msg : Option String) :
    List AccessGrant × Except ApiError Unit :=
  match doc? with
  | none => (grants, .error .NotFound)
  | some _ => (grants.map (bulkRevokeStep documentId now msg), .ok ())

/-- Source createAuditLog: builds a download-audit-log row and saves
it inside a try-catch; a save failure is logged and swallowed, so the
function always returns normally.  The possibility that the repository
save throws is made explicit with the saveFails flag; on failure the
stored log is unchanged. -/
def createAuditLog (saveFails : Bool) (log : List DownloadAuditLog)
    (g : AccessGrant) (action : DownloadAction) (details : String)
    (ipAddress userAgent : Option String) (bytesDownloaded : Option Nat) :
    List DownloadAuditLog :=
  let entry : DownloadAuditLog :=
    { accessGrantId := g.id
      documentId := g.documentId
      requestorEmail := g.requestorEmail
      action := action
      details := details
      ipAddress := ipAddress
      userAgent := userAgent
      bytesDownloaded := bytesDownloaded }
  if saveFails then log else log ++ [entry]

/-- Source requestOtp after the grant lookup (the looked-up grant and
its document are explicit).  Fails BadRequest when canRequestOtp is
false and Forbidden when the document is no longer public; otherwise
resets a stale verified session, stores the new OTP with a 15-minute
expiry and a zero attempt counter.  The random 6-digit code is passed
in as newOtp. -/
def requestOtp (g : AccessGrant) (doc : DocumentFile) (now : Int)
    (newOtp : String) :
    AccessGrant × Except ApiError (String × Nat) :=
  if !(g.canRequestOtp now) then (g, .error .BadRequest)
  else if doc.visibilityStatus != VisibilityStatus.PUBLIC then
    (g, .error .Forbidden)
  else
    let g1 :=
      if g.isVerified && !(g.isSessionActive now) then
        { g with
          isVerified := false
          verifiedAt := none
          downloadSessionToken := none
          lastActivityAt := none }
      else g
    let g2 :=
      { g1 with
        otp := some newOtp
        otpExpiryDate := some (now + (OTP_VALIDITY_MINUTES : Int) * 60 * 1000)
        otpAttempts := 0 }
    (g2, .ok (g.requestorEmail, OTP_VALIDITY_MINUTES * 60))

/-- Source verifyOtp after the grant lookup.  When canVerifyOtp fails:
Conflict if the attempt counter reached the maximum, BadRequest
otherwise.  A wrong code increments and persists the attempt counter
and fails BadRequest.  A matching code creates the download session
(isVerified, verifiedAt, downloadSessionToken, lastActivityAt) and
clears the stored OTP to the empty string; note that no isExpired
check on the grant is performed anywhere in this function.  The fresh
session UUID is passed in as newToken. -/
def verifyOtp (g : AccessGrant) (code : String) (now : Int)
    (newToken : String) :
    AccessGrant × Except ApiError (String × Nat) :=
  if !(g.canVerifyOtp now) then
    if g.otpAttempts >= OTP_MAX_ATTEMPTS then (g, .error .Conflict)
    else (g, .error .BadRequest)
  else if g.otp != some code then
    let g' := { g with otpAttempts := g.otpAttempts + 1 }
    (g', .error .BadRequest)
  else
    let g' :=
      { g with
        isVerified := true
        verifiedAt := some now
        downloadSessionToken := some newToken
        lastActivityAt := some now
        otp := some "" }
    (g', .ok (newToken, SESSION_TIMEOUT_MINUTES * 60))

/-- Repository lookup of the session endpoints: a grant whose
downloadSessionToken matches and whose isVerified flag is set. -/
def findBySessionToken (grants : List AccessGrant) (token : String) :
    Option AccessGrant :=
  grants.find? (fun g =>
    g.downloadSessionToken == some token && g.isVerified)

/-- Source validateDownloadSession after the token lookup (none models
a lookup miss).  Forbidden when the session is inactive or the
document is no longer public; on success lastActivityAt is refreshed
and the session TTL and requestor email are returned. -/
def validateDownloadSession (g? : Option AccessGrant) (doc : DocumentFile)
    (now : Int) :
    Option AccessGrant × Except ApiError (Nat × String × String) :=
  match g? with
  | none => (none, .error .NotFound)
  | some g =>
    if !(g.isSessionActive now) then (some g, .error .Forbidden)
    else if doc.visibilityStatus != VisibilityStatus.PUBLIC then
      (some g, .error .Forbidden)
    else
      let g' := { g with lastActivityAt := some now }
      (some g', .ok (SESSION_TIMEOUT_MINUTES * 60, g.requestorEmail,
        doc.filename))

/-- Source getDocumentForDownload: same lookup and checks as
validateDownloadSession, returning the document for streaming and
refreshing activity on success. -/
def getDocumentForDownload (g? : Option AccessGrant) (doc : DocumentFile)
    (now : Int) :
    Option AccessGrant × Except ApiError DocumentFile :=
  match g? with
  | none => (none, .error .NotFound)
  | some g =>
    if !(g.isSessionActive now) then (some g, .error .Forbidden)
    else if doc.visibilityStatus != VisibilityStatus.PUBLIC then
      (some g, .error .Forbidden)
    else
      let g' := { g with lastActivityAt := some now }
      (some g', .ok doc)

/-- Source recordDownload after the token lookup: NotFound on a lookup
miss, Forbidden when the session is inactive; otherwise refreshes
lastActivityAt, persists, and writes a DOWNLOAD_COMPLETED audit row
through createAuditLog, whose failure (auditSaveFails) is swallowed
and never reaches the caller. -/
def recordDownload (g? : Option AccessGrant) (log : List DownloadAuditLog)
    (now : Int) (auditSaveFails : Bool) (bytesDownloaded : Nat)
    (ipAddress userAgent : String) :
    Option AccessGrant × List DownloadAuditLog × Except ApiError Unit :=
  match g? with
  | none => (none, log, .error .NotFound)
  | some g =>
    if !(g.isSessionActive now) then (some g, log, .error .Forbidden)
    else
      let g' := { g with lastActivityAt := some now }
      let details :=
        "Document downloaded successfully. Size: " ++
        toString bytesDownloaded ++ " bytes."
      let log' := createAuditLog auditSaveFails log g'
        DownloadAction.DOWNLOAD_COMPLETED details
        (some ipAddress) (some userAgent) (some bytesDownloaded)
      (some g', log', .ok ())

/-- One grant-mutating operation of the services, with its request
parameters; the nondeterministic fresh values (random OTP, fresh
session UUID) and the current instant are data of the operation. -/
inductive GrantOp where
  | approveOp (expiryDate now : Int) (msg : Option String)
  | denyOp (now : Int) (reason : Option String)
  | revokeOp (now : Int) (msg : Option String)
  | bulkRevokeOp (documentId : String) (now : Int) (msg : Option String)
  | requestOtpOp (now : Int) (newOtp : String)
  | verifyOtpOp (code : String) (now : Int) (newToken : String)
  | validateSessionOp (now : Int)
  | downloadOp (now : Int)
  | recordDownloadOp (now : Int) (auditSaveFails : Bool)
      (bytesDownloaded : Nat) (ipAddress userAgent : String)
deriving DecidableEq, Repr

/-- Whether an operation is the OTP-request endpoint (the only one
allowed to reset the attempt counter). -/
def GrantOp.isRequestOtpOp : GrantOp → Bool
  | .requestOtpOp _ _ => true
  | _ => false

/-- Persisted state of one grant after one operation ran against it
(with the repository lookups having found the grant and its
document). -/
def applyGrantOp (op : GrantOp) (doc : DocumentFile) (g : AccessGrant) :
    AccessGrant :=
  match op with
  | .approveOp e n m => ((approveAccessRequest (some doc) (some g) e n m).1).getD g
  | .denyOp n r => ((denyAccessRequest (some doc) (some g) n r).1).getD g
  | .revokeOp n m => ((revokeAccessGrant (some doc) (some g) n m).1).getD g
  | .bulkRevokeOp d n m => bulkRevokeStep d n m g
  | .requestOtpOp n o => (requestOtp g doc n o).1
  | .verifyOtpOp c n t => (verifyOtp g c n t).1
  | .validateSessionOp n => ((validateDownloadSession (some g) doc n).1).getD g
  | .downloadOp n => ((getDocumentForDownload (some g) doc n).1).getD g
  | .recordDownloadOp n f b i u =>
      ((recordDownload (some g) [] n f b i u).1).getD g

/-- The amended one-directional transition relation on statuses: stay
in place, PENDING to APPROVED, DENIED or REVOKED, APPROVED to REVOKED,
DENIED to REVOKED; nothing leaves REVOKED. -/
def allowedTransition (s t : AccessStatus) : Bool :=
  s == t ||
  (s == AccessStatus.PENDING &&
    (t == AccessStatus.APPROVED || t == AccessStatus.DENIED ||
     t == AccessStatus.REVOKED)) ||
  (s == AccessStatus.APPROVED && t == AccessStatus.REVOKED) ||
  (s == AccessStatus.DENIED && t == AccessStatus.REVOKED)

/-- Concrete public document used to instantiate theorems. -/
def sampleDoc : DocumentFile :=
  { id := "doc-1"
    ownerId := "owner-1"
    filename := "report.pdf"
    visibilityStatus := VisibilityStatus.PUBLIC
    deletedAt := none }

/-- Concrete freshly-submitted grant (all entity defaults). -/
def baseGrant : AccessGrant :=
  { id := "grant-1"
    documentId := "doc-1"
    requestorEmail := "alice@x.com"
    requestorName := some "Alice"
    requestorOrganization := none
    requestPurpose := "research"
    accessToken := some "uuid-1"
    status := AccessStatus.PENDING
    expiryDate := none
    denialReason := none
    approvalMessage := none
    revocationMessage := none
    actionCompletedAt := none
    otp := none
    otpExpiryDate := none
    otpAttempts := 0
    isVerified := false
    verifiedAt := none
    downloadSessionToken := none
    lastActivityAt := none
    requestedAt := 0 }

/-- Concrete submit DTO used to instantiate theorems. -/
def sampleDto : SubmitAccessRequestDto :=
  { requestorEmail := "alice@x.com"
    requestorName := some "Alice"
    requestorOrganization := none
    requestPurpose := "research" }

/-- Verified, unexpired grant whose lastActivityAt was never set. -/
def gNoActivity : AccessGrant :=
  { baseGrant with
    status := AccessStatus.APPROVED
    expiryDate := some 2000000
    isVerified := true
    verifiedAt := some 500
    downloadSessionToken := some "sess-1"
    lastActivityAt := none }

/-- Claim C2, counterexample: at instant 1000 the grant gNoActivity is
verified, not expired, and has no lastActivityAt, so the claim demands
isSessionActive to be false; the source returns true (a missing
lastActivityAt falls through to true). -/
theorem c2_session_requires_activity_counterexample :
    (gNoActivity.isVerified = true ∧
     gNoActivity.isExpired 1000 = false ∧
     gNoActivity.lastActivityAt = none) ∧
    gNoActivity.isSessionActive 1000 = true ∧
    isSessionActiveSpec gNoActivity 1000 = false := by
  decide

/-- Claim C2, amended: isSessionActive returns true iff isVerified is
true, the grant is not expired, and either lastActivityAt is absent
(null) or now minus lastActivityAt is strictly under 60 minutes; when
lastActivityAt is null the session counts as active, not inactive. -/
theorem c2_session_active_characterization (g : AccessGrant) (now : Int) :
    g.isSessionActive now = isSessionActiveAmended g now := by
  unfold AccessGrant.isSessionActive isSessionActiveAmended
  cases hv : g.isVerified <;>
    cases he : g.isExpired now <;>
      cases hl : g.lastActivityAt <;>
        simp [hv, he, hl]

/-- Claim C3: whenever canVerifyOtp holds and the stored otp equals the
supplied code, verifyOtp succeeds and creates the download session,
even under the extra hypothesis that the grant itself is already
expired (verifyOtp contains no isExpired check). -/
theorem c3_verify_ignores_grant_expiry (g : AccessGrant) (now : Int)
    (code token : String)
    (hcan : g.canVerifyOtp now = true)
    (hotp : g.otp = some code)
    (_hexp : g.isExpired now = true) :
    (verifyOtp g code now token).2 =
      .ok (token, SESSION_TIMEOUT_MINUTES * 60) ∧
    (verifyOtp g code now token).1.isVerified = true ∧
    (verifyOtp g code now token).1.verifiedAt = some now ∧
    (verifyOtp g code now token).1.downloadSessionToken = some token ∧
    (verifyOtp g code now token).1.lastActivityAt = some now ∧
    (verifyOtp g code now token).1.otp = some "" := by
  unfold verifyOtp
  simp [hcan, hotp]

/-- Expired APPROVED grant holding a live OTP: expiry date 500 is in
the past at instant 1000 while the OTP is unexpired until 2000. -/
def gExpiredOtp : AccessGrant :=
  { baseGrant with
    status := AccessStatus.APPROVED
    expiryDate := some 500
    otp := some "123456"
    otpExpiryDate := some 2000
    otpAttempts := 0 }

/-- Witness for claim C3 at a concrete expired grant. -/
theorem c3_verify_ignores_grant_expiry_witness :
    (verifyOtp gExpiredOtp "123456" 1000 "sess-9").2 =
      .ok ("sess-9", SESSION_TIMEOUT_MINUTES * 60) ∧
    (verifyOtp gExpiredOtp "123456" 1000 "sess-9").1.isVerified = true ∧
    (verifyOtp gExpiredOtp "123456" 1000 "sess-9").1.verifiedAt = some 1000 ∧
    (verifyOtp gExpiredOtp "123456" 1000 "sess-9").1.downloadSessionToken =
      some "sess-9" ∧
    (verifyOtp gExpiredOtp "123456" 1000 "sess-9").1.lastActivityAt =
      some 1000 ∧
    (verifyOtp gExpiredOtp "123456" 1000 "sess-9").1.otp = some "" :=
  c3_verify_ignores_grant_expiry gExpiredOtp 1000 "123456" "sess-9"
    (by decide) (by decide) (by decide)

/-- Helper: once the attempt counter has reached the maximum,
canVerifyOtp is false whatever the other fields hold. -/
lemma canVerifyOtp_eq_false_of_max_attempts (g : AccessGrant) (now : Int)
    (h : OTP_MAX_ATTEMPTS ≤ g.otpAttempts) :
    g.canVerifyOtp now = false := by
  unfold AccessGrant.canVerifyOtp
  split
  · rfl
  · split
    · rfl
    · split
      · rfl
      · rename_i h3
        exact absurd h (by simpa [OTP_MAX_ATTEMPTS] using h3)

/-- Claim C4: with otpAttempts at 3, verifyOtp fails with Conflict and
leaves the grant unchanged even when the supplied code equals the
stored otp; no operation other than requestOtp ever lowers the attempt
counter; and a successful requestOtp resets otpAttempts to 0, stores
the freshly generated code and sets a 15-minute otp expiry. -/
theorem c4_attempt_limit_and_reset :
    (∀ (g : AccessGrant) (code : String) (now : Int) (token : String),
      g.otpAttempts = OTP_MAX_ATTEMPTS → g.otp = some code →
      verifyOtp g code now token = (g, .error .Conflict)) ∧
    (∀ (op : GrantOp) (doc : DocumentFile) (g : AccessGrant),
      op.isRequestOtpOp = false →
      g.otpAttempts ≤ (applyGrantOp op doc g).otpAttempts) ∧
    (∀ (g : AccessGrant) (doc : DocumentFile) (now : Int) (newOtp : String),
      g.canRequestOtp now = true →
      doc.visibilityStatus = VisibilityStatus.PUBLIC →
      (requestOtp g doc now newOtp).1.otpAttempts = 0 ∧
      (requestOtp g doc now newOtp).1.otp = some newOtp ∧
      (requestOtp g doc now newOtp).1.otpExpiryDate =
        some (now + 15 * 60 * 1000) ∧
      (requestOtp g doc now newOtp).2 = .ok (g.requestorEmail, 900)) := by
  refine ⟨?_, ?_, ?_⟩
  · intro g code now token hmax _hotp
    unfold verifyOtp
    rw [canVerifyOtp_eq_false_of_max_attempts g now (le_of_eq hmax.symm)]
    simp [hmax]
  · intro op doc g hop
    cases op <;>
      simp only [GrantOp.isRequestOtpOp] at hop <;>
      simp only [applyGrantOp, approveAccessRequest, denyAccessRequest,
        revokeAccessGrant, bulkRevokeStep, requestOtp, verifyOtp,
        validateDownloadSession, getDocumentForDownload, recordDownload] <;>
      (repeat' split) <;> simp_all
  · intro g doc now newOtp hcan hvis
    unfold requestOtp
    rw [hcan, hvis]
    exact ⟨rfl, rfl, rfl, rfl⟩

/-- Approved unexpired grant whose attempt counter is exhausted, still
holding the correct stored code. -/
def gMaxAttempts : AccessGrant :=
  { baseGrant with
    status := AccessStatus.APPROVED
    expiryDate := some 10000
    otp := some "222333"
    otpExpiryDate := some 10000
    otpAttempts := 3 }

/-- Approved unexpired grant with no OTP yet requested. -/
def gApproved : AccessGrant :=
  { baseGrant with
    status := AccessStatus.APPROVED
    expiryDate := some 10000 }

/-- Witness for claim C4 at concrete inputs: the locked grant rejects
even the correct code with Conflict, revocation does not lower the
attempt counter, and a fresh requestOtp resets it with a new code and
15-minute expiry. -/
theorem c4_attempt_limit_and_reset_witness :
    verifyOtp gMaxAttempts "222333" 100 "tok-1" =
      (gMaxAttempts, .error .Conflict) ∧
    baseGrant.otpAttempts ≤
      (applyGrantOp (GrantOp.revokeOp 5 none) sampleDoc baseGrant).otpAttempts ∧
    ((requestOtp gApproved sampleDoc 100 "654321").1.otpAttempts = 0 ∧
     (requestOtp gApproved sampleDoc 100 "654321").1.otp = some "654321" ∧
     (requestOtp gApproved sampleDoc 100 "654321").1.otpExpiryDate =
       some (100 + 15 * 60 * 1000) ∧
     (requestOtp gApproved sampleDoc 100 "654321").2 =
       .ok (gApproved.requestorEmail, 900)) :=
  ⟨c4_attempt_limit_and_reset.1 gMaxAttempts "222333" 100 "tok-1" rfl rfl,
   c4_attempt_limit_and_reset.2.1 (GrantOp.revokeOp 5 none) sampleDoc
     baseGrant rfl,
   c4_attempt_limit_and_reset.2.2 gApproved sampleDoc 100 "654321"
     (by decide) rfl⟩

/-- Helper: canVerifyOtp unfolded into its three conditions. -/
lemma canVerifyOtp_iff (g : AccessGrant) (now : Int) :
    g.canVerifyOtp now = true ↔
      (strTruthy g.otp = true ∧ g.isOtpExpired now = false ∧
       g.otpAttempts < 3) := by
  unfold AccessGrant.canVerifyOtp
  (repeat' split) <;> simp_all

/-- Helper: changing only the attempt counter to a value under the
limit preserves canVerifyOtp. -/
lemma canVerifyOtp_update_attempts (g : AccessGrant) (now : Int) (n : Nat)
    (hcan : g.canVerifyOtp now = true) (hn : n < 3) :
    AccessGrant.canVerifyOtp { g with otpAttempts := n } now = true := by
  rw [canVerifyOtp_iff] at hcan ⊢
  obtain ⟨h1, h2, _⟩ := hcan
  exact ⟨h1, h2, hn⟩

/-- Helper: one wrong code while canVerifyOtp holds increments the
persisted attempt counter and fails BadRequest. -/
lemma verifyOtp_wrong (g : AccessGrant) (now : Int) (wrong token : String)
    (hcan : g.canVerifyOtp now = true) (hw : g.otp ≠ some wrong) :
    verifyOtp g wrong now token =
      ({ g with otpAttempts := g.otpAttempts + 1 }, .error .BadRequest) := by
  unfold verifyOtp
  rw [hcan]
  simp [bne_iff_ne, hw]

/-- Helper: once the attempt counter is at the maximum, any verifyOtp
call returns Conflict and leaves the grant unchanged. -/
lemma verifyOtp_conflict_of_max (g : AccessGrant) (code : String)
    (now : Int) (token : String) (h : OTP_MAX_ATTEMPTS ≤ g.otpAttempts) :
    verifyOtp g code now token = (g, .error .Conflict) := by
  unfold verifyOtp
  rw [canVerifyOtp_eq_false_of_max_attempts g now h]
  simp [h]

/-- Approved unexpired grant holding a fresh valid OTP 111111 with a
zero attempt counter. -/
def gOtpFresh : AccessGrant :=
  { baseGrant with
    status := AccessStatus.APPROVED
    expiryDate := some 10000000
    otp := some "111111"
    otpExpiryDate := some 10000000
    otpAttempts := 0 }

/-- State after one wrong submission against gOtpFresh. -/
def gWrongOnce : AccessGrant := (verifyOtp gOtpFresh "000000" 1000 "tok-w").1

/-- State after two wrong submissions against gOtpFresh. -/
def gWrongTwice : AccessGrant := (verifyOtp gWrongOnce "000000" 1000 "tok-w").1

/-- Claim C5, counterexample: starting from otpAttempts 0 with a valid
unexpired OTP, the third consecutive wrong verifyOtp call fails with
BadRequest (0 attempts remaining), not with Conflict; Conflict only
appears from the fourth call on. -/
theorem c5_third_attempt_counterexample :
    gOtpFresh.otpAttempts = 0 ∧
    gOtpFresh.canVerifyOtp 1000 = true ∧
    (verifyOtp gWrongTwice "000000" 1000 "tok-w").2 = .error .BadRequest ∧
    ApiError.BadRequest ≠ ApiError.Conflict :=
  ⟨rfl, rfl, rfl, by decide⟩

/-- Claim C5, amended: three consecutive wrong verifyOtp calls from
otpAttempts 0 all fail with BadRequest, the third leaving otpAttempts
at 3; it is the fourth call (with any code, even the correct one) that
fails with Conflict. -/
theorem c5_three_wrong_attempts (g : AccessGrant) (now : Int)
    (wrong token : String) (h0 : g.otpAttempts = 0)
    (hcan : g.canVerifyOtp now = true) (hw : g.otp ≠ some wrong) :
    (verifyOtp g wrong now token).2 = .error .BadRequest ∧
    (verifyOtp (verifyOtp g wrong now token).1 wrong now token).2 =
      .error .BadRequest ∧
    (verifyOtp (verifyOtp (verifyOtp g wrong now token).1 wrong now
      token).1 wrong now token).2 = .error .BadRequest ∧
    (verifyOtp (verifyOtp (verifyOtp g wrong now token).1 wrong now
      token).1 wrong now token).1.otpAttempts = 3 ∧
    (∀ (code2 : String) (now2 : Int) (token2 : String),
      (verifyOtp (verifyOtp (verifyOtp (verifyOtp g wrong now token).1
        wrong now token).1 wrong now token).1 code2 now2 token2).2 =
        .error .Conflict) := by
  have e1 : verifyOtp g wrong now token =
      ({ g with otpAttempts := 1 }, .error .BadRequest) := by
    rw [verifyOtp_wrong g now wrong token hcan hw]
    simp [h0]
  have hcan1 : AccessGrant.canVerifyOtp { g with otpAttempts := 1 } now =
      true := canVerifyOtp_update_attempts g now 1 hcan (by omega)
  have e2 : verifyOtp ({ g with otpAttempts := 1 } : AccessGrant) wrong
      now token = ({ g with otpAttempts := 2 }, .error .BadRequest) := by
    rw [verifyOtp_wrong _ now wrong token hcan1 hw]
  have hcan2 : AccessGrant.canVerifyOtp { g with otpAttempts := 2 } now =
      true := canVerifyOtp_update_attempts g now 2 hcan (by omega)
  have e3 : verifyOtp ({ g with otpAttempts := 2 } : AccessGrant) wrong
      now token = ({ g with otpAttempts := 3 }, .error .BadRequest) := by
    rw [verifyOtp_wrong _ now wrong token hcan2 hw]
  have f1 : (verifyOtp g wrong now token).1 =
      { g with otpAttempts := 1 } := by rw [e1]
  have f2 : (verifyOtp ({ g with otpAttempts := 1 } : AccessGrant) wrong
      now token).1 = { g with otpAttempts := 2 } := by rw [e2]
  have f3 : (verifyOtp ({ g with otpAttempts := 2 } : AccessGrant) wrong
      now token).1 = { g with otpAttempts := 3 } := by rw [e3]
  refine ⟨?_, ?_, ?_, ?_, ?_⟩
  · rw [e1]
  · rw [f1, e2]
  · rw [f1, f2, e3]
  · rw [f1, f2, f3]
  · intro code2 now2 token2
    rw [f1, f2, f3,
      verifyOtp_conflict_of_max { g with otpAttempts := 3 } code2 now2
        token2 (by simp [OTP_MAX_ATTEMPTS])]

/-- Witness for the amended claim C5 at the concrete grant gOtpFresh. -/
theorem c5_three_wrong_attempts_witness :
    (verifyOtp gOtpFresh "000000" 1000 "tok-w").2 = .error .BadRequest ∧
    (verifyOtp (verifyOtp gOtpFresh "000000" 1000 "tok-w").1 "000000"
      1000 "tok-w").2 = .error .BadRequest ∧
    (verifyOtp (verifyOtp (verifyOtp gOtpFresh "000000" 1000 "tok-w").1
      "000000" 1000 "tok-w").1 "000000" 1000 "tok-w").2 =
      .error .BadRequest ∧
    (verifyOtp (verifyOtp (verifyOtp gOtpFresh "000000" 1000 "tok-w").1
      "000000" 1000 "tok-w").1 "000000" 1000 "tok-w").1.otpAttempts = 3 ∧
    (∀ (code2 : String) (now2 : Int) (token2 : String),
      (verifyOtp (verifyOtp (verifyOtp (verifyOtp gOtpFresh "000000"
        1000 "tok-w").1 "000000" 1000 "tok-w").1 "000000" 1000
        "tok-w").1 code2 now2 token2).2 = .error .Conflict) :=
  c5_three_wrong_attempts gOtpFresh 1000 "000000" "tok-w" rfl
    (by decide) (by decide)

/-- Concrete denied grant. -/
def gDeniedSample : AccessGrant :=
  { baseGrant with
    status := AccessStatus.DENIED
    denialReason := some "not allowed"
    actionCompletedAt := some 10 }

/-- Claim C1, counterexample: revokeAccessGrant has no status
precondition, so it moves a DENIED grant to REVOKED, a transition out
of DENIED that the claim rules out. -/
theorem c1_denied_to_revoked_counterexample :
    gDeniedSample.status = AccessStatus.DENIED ∧
    ((revokeAccessGrant (some sampleDoc) (some gDeniedSample) 1000
      none).1.map AccessGrant.status) = some AccessStatus.REVOKED ∧
    AccessStatus.DENIED ≠ AccessStatus.REVOKED :=
  ⟨rfl, rfl, by decide⟩

/-- Claim C1, amended: over every operation of the services, the status
of a grant only moves along PENDING to APPROVED, DENIED or REVOKED,
APPROVED to REVOKED, and DENIED to REVOKED (revokeAccessGrant has no
status precondition), or stays in place; in particular nothing ever
leaves REVOKED; and submitAccessRequest only creates new grants whose
status is PENDING. -/
theorem c1_status_transitions :
    (∀ (op : GrantOp) (doc : DocumentFile) (g : AccessGrant),
      allowedTransition g.status (applyGrantOp op doc g).status = true) ∧
    (∀ (docs : List DocumentFile) (grants : List AccessGrant)
      (documentId : String) (dto : SubmitAccessRequestDto)
      (newId requestUUID : String) (now : Int) (g : AccessGrant)
      (ruuid : String),
      submitAccessRequest docs grants documentId dto newId requestUUID
        now = .ok (g, ruuid) →
      g.status = AccessStatus.PENDING) := by
  constructor
  · intro op doc g
    cases op <;> cases hs : g.status <;>
      simp only [applyGrantOp, approveAccessRequest, denyAccessRequest,
        revokeAccessGrant, bulkRevokeStep, requestOtp, verifyOtp,
        validateDownloadSession, getDocumentForDownload, recordDownload,
        allowedTransition, hs] <;>
      (repeat' split) <;> simp_all
  · intro docs grants documentId dto newId requestUUID now g ruuid h
    unfold submitAccessRequest at h
    cases hfind : findPublicDocument docs documentId with
    | none => rw [hfind] at h; exact absurd h (by simp)
    | some d =>
      rw [hfind] at h
      cases hb : hasPendingRequest grants documentId dto.requestorEmail
      · simp only [hb] at h
        simp only [Bool.false_eq_true, if_false, Except.ok.injEq,
          Prod.mk.injEq] at h
        obtain ⟨hg, -⟩ := h
        subst hg
        rfl
      · simp only [hb] at h
        simp at h

/-- The grant created by a concrete successful submission. -/
def gSubmitted : AccessGrant :=
  { id := "g-2"
    documentId := "doc-1"
    requestorEmail := "alice@x.com"
    requestorName := some "Alice"
    requestorOrganization := none
    requestPurpose := "research"
    accessToken := some "uuid-2"
    status := AccessStatus.PENDING
    expiryDate := none
    denialReason := none
    approvalMessage := none
    revocationMessage := none
    actionCompletedAt := none
    otp := none
    otpExpiryDate := none
    otpAttempts := 0
    isVerified := false
    verifiedAt := none
    downloadSessionToken := none
    lastActivityAt := none
    requestedAt := 0 }

/-- Witness for the amended claim C1: a concrete revocation of a denied
grant stays inside the amended relation, and a concrete submission
creates a PENDING grant. -/
theorem c1_status_transitions_witness :
    allowedTransition gDeniedSample.status
      (applyGrantOp (GrantOp.revokeOp 5 none) sampleDoc
        gDeniedSample).status = true ∧
    gSubmitted.status = AccessStatus.PENDING :=
  ⟨c1_status_transitions.1 (GrantOp.revokeOp 5 none) sampleDoc
    gDeniedSample,
   c1_status_transitions.2 [sampleDoc] [] "doc-1" sampleDto "g-2"
     "uuid-2" 0 gSubmitted "uuid-2" (by rfl)⟩

/-- Claim C6: bulkRevokeAccess maps the per-grant step over the grant
table; the step revokes exactly the APPROVED, unexpired grants of the
document (setting revocation message and completion time) and leaves
every other grant, including APPROVED-but-expired ones, completely
unchanged. -/
theorem c6_bulk_revoke (doc : DocumentFile) (grants : List AccessGrant)
    (documentId : String) (now : Int) (msg : Option String) :
    (bulkRevokeAccess (some doc) grants documentId now msg).2 = .ok () ∧
    (bulkRevokeAccess (some doc) grants documentId now msg).1 =
      grants.map (bulkRevokeStep documentId now msg) ∧
    ∀ g : AccessGrant,
      (g.documentId = documentId → g.status = AccessStatus.APPROVED →
        g.isExpired now = false →
        bulkRevokeStep documentId now msg g =
          { g with
            status := AccessStatus.REVOKED
            revocationMessage :=
              if strTruthy msg then msg else g.revocationMessage
            actionCompletedAt := some now }) ∧
      (g.status = AccessStatus.APPROVED → g.isExpired now = true →
        bulkRevokeStep documentId now msg g = g) ∧
      (g.status ≠ AccessStatus.APPROVED →
        bulkRevokeStep documentId now msg g = g) := by
  refine ⟨rfl, rfl, fun g => ⟨?_, ?_, ?_⟩⟩
  · intro h1 h2 h3
    simp [bulkRevokeStep, h1, h2, h3]
  · intro h2 h3
    simp [bulkRevokeStep, h2, h3]
  · intro h
    simp [bulkRevokeStep, h]

/-- Approved grant already expired at instant 1000. -/
def gApprovedExpired : AccessGrant :=
  { gApproved with expiryDate := some 500 }

/-- Witness for claim C6: at instant 1000 the live approved grant is
revoked while the expired approved grant is untouched. -/
theorem c6_bulk_revoke_witness :
    bulkRevokeStep "doc-1" 1000 none gApproved =
      { gApproved with
        status := AccessStatus.REVOKED
        actionCompletedAt := some 1000 } ∧
    bulkRevokeStep "doc-1" 1000 none gApprovedExpired = gApprovedExpired :=
  ⟨((c6_bulk_revoke sampleDoc [gApproved, gApprovedExpired] "doc-1" 1000
      none).2.2 gApproved).1 rfl rfl (by decide),
   ((c6_bulk_revoke sampleDoc [gApproved, gApprovedExpired] "doc-1" 1000
      none).2.2 gApprovedExpired).2.1 rfl (by decide)⟩

/-- Claim C7: approveAccessRequest fails BadRequest when the grant is
not PENDING; fails BadRequest when the parsed expiry date is not
strictly in the future; and on a PENDING grant with a future expiry it
succeeds, setting status APPROVED, the expiry date, the optional
approval message and actionCompletedAt, after which a second approve
of the same grant fails BadRequest. -/
theorem c7_approve_exactly_once (doc : DocumentFile) (g : AccessGrant)
    (e now : Int) (msg : Option String) :
    (g.status ≠ AccessStatus.PENDING →
      (approveAccessRequest (some doc) (some g) e now msg).2 =
        .error .BadRequest) ∧
    (e ≤ now →
      (approveAccessRequest (some doc) (some g) e now msg).2 =
        .error .BadRequest) ∧
    (g.status = AccessStatus.PENDING → now < e →
      ∃ g', approveAccessRequest (some doc) (some g) e now msg =
          (some g', .ok g') ∧
        g'.status = AccessStatus.APPROVED ∧
        g'.expiryDate = some e ∧
        g'.actionCompletedAt = some now ∧
        g'.approvalMessage =
          (if strTruthy msg then msg else g.approvalMessage) ∧
        (approveAccessRequest (some doc) (some g') e now msg).2 =
          .error .BadRequest) := by
  refine ⟨?_, ?_, ?_⟩
  · intro h
    simp only [approveAccessRequest]
    simp [bne_iff_ne, h]
  · intro h
    simp only [approveAccessRequest]
    split
    · rfl
    · rfl
  · intro hs hlt
    simp only [approveAccessRequest]
    rw [hs]
    rw [if_neg (by simp :
      ¬ ((AccessStatus.PENDING != AccessStatus.PENDING) = true))]
    rw [if_neg (not_le.mpr hlt)]
    exact ⟨_, rfl, rfl, rfl, rfl, rfl, rfl⟩

/-- Witness for claim C7 at concrete inputs: approving a non-PENDING
grant fails, approving with a past expiry fails, and approving a
PENDING grant with a future expiry succeeds exactly once. -/
theorem c7_approve_exactly_once_witness :
    (approveAccessRequest (some sampleDoc) (some gApproved) 100 0
      none).2 = .error .BadRequest ∧
    (approveAccessRequest (some sampleDoc) (some baseGrant) 0 5
      none).2 = .error .BadRequest ∧
    (∃ g', approveAccessRequest (some sampleDoc) (some baseGrant) 100 0
        none = (some g', .ok g') ∧
      g'.status = AccessStatus.APPROVED ∧
      g'.expiryDate = some 100 ∧
      g'.actionCompletedAt = some 0 ∧
      g'.approvalMessage =
        (if strTruthy none then none else baseGrant.approvalMessage) ∧
      (approveAccessRequest (some sampleDoc) (some g') 100 0 none).2 =
        .error .BadRequest) :=
  ⟨(c7_approve_exactly_once sampleDoc gApproved 100 0 none).1 (by decide),
   (c7_approve_exactly_once sampleDoc baseGrant 0 5 none).2.1 (by decide),
   (c7_approve_exactly_once sampleDoc baseGrant 100 0 none).2.2 rfl
     (by decide)⟩

/-- Claim C8: submitAccessRequest fails NotFound exactly when no
public non-deleted document matches; with the document found it fails
Conflict if and only if a PENDING grant for the same document and
requestor email exists, and otherwise creates a fresh PENDING grant
whose accessToken is the fresh UUID returned to the requestor. -/
theorem c8_submit_duplicate_pending (docs : List DocumentFile)
    (grants : List AccessGrant) (documentId : String)
    (dto : SubmitAccessRequestDto) (newId requestUUID : String)
    (now : Int) :
    (findPublicDocument docs documentId = none →
      submitAccessRequest docs grants documentId dto newId requestUUID
        now = .error .NotFound) ∧
    (findPublicDocument docs documentId ≠ none →
      ((submitAccessRequest docs grants documentId dto newId requestUUID
          now = .error .Conflict ↔
        hasPendingRequest grants documentId dto.requestorEmail = true) ∧
       (hasPendingRequest grants documentId dto.requestorEmail = false →
        ∃ g, submitAccessRequest docs grants documentId dto newId
            requestUUID now = .ok (g, requestUUID) ∧
          g.status = AccessStatus.PENDING ∧
          g.accessToken = some requestUUID ∧
          g.documentId = documentId ∧
          g.requestorEmail = dto.requestorEmail))) := by
  constructor
  · intro h
    unfold submitAccessRequest
    rw [h]
  · intro h
    obtain ⟨d, hd⟩ := Option.ne_none_iff_exists'.mp h
    unfold submitAccessRequest
    rw [hd]
    cases hb : hasPendingRequest grants documentId dto.requestorEmail
    · constructor
      · simp
      · intro _
        exact ⟨_, rfl, rfl, rfl, rfl, rfl⟩
    · constructor
      · simp
      · intro hfalse
        exact absurd hfalse (by simp)

/-- A second pending request by the same requestor for the same
document, used to trigger the duplicate-pending Conflict. -/
def duplicateDto : SubmitAccessRequestDto :=
  { requestorEmail := "alice@x.com"
    requestorName := none
    requestorOrganization := none
    requestPurpose := "follow-up" }

/-- Witness for claim C8 at concrete inputs: a submission against a
table holding a PENDING grant of the same pair gives Conflict, and a
submission against an empty table succeeds with a PENDING grant
carrying the fresh UUID. -/
theorem c8_submit_duplicate_pending_witness :
    (submitAccessRequest [sampleDoc] [baseGrant] "doc-1" duplicateDto
      "g-3" "uuid-3" 50 = .error .Conflict) ∧
    (∃ g, submitAccessRequest [sampleDoc] [] "doc-1" duplicateDto "g-3"
        "uuid-3" 50 = .ok (g, "uuid-3") ∧
      g.status = AccessStatus.PENDING ∧
      g.accessToken = some "uuid-3" ∧
      g.documentId = "doc-1" ∧
      g.requestorEmail = duplicateDto.requestorEmail) :=
  ⟨((c8_submit_duplicate_pending [sampleDoc] [baseGrant] "doc-1"
      duplicateDto "g-3" "uuid-3" 50).2 (by decide)).1.mpr (by decide),
   ((c8_submit_duplicate_pending [sampleDoc] [] "doc-1" duplicateDto
      "g-3" "uuid-3" 50).2 (by decide)).2 (by decide)⟩

/-- Claim C9: a failing audit-log save is swallowed by createAuditLog
(the stored log is simply left unchanged and no error escapes); the
session lookup only ever returns verified grants; and recordDownload
returns success and refreshes lastActivityAt for any active session,
for both outcomes of the audit write. -/
theorem c9_audit_failure_never_propagates :
    (∀ (log : List DownloadAuditLog) (g : AccessGrant)
      (action : DownloadAction) (details : String)
      (ipAddress userAgent : Option String) (bytesDownloaded : Option Nat),
      createAuditLog true log g action details ipAddress userAgent
        bytesDownloaded = log) ∧
    (∀ (grants : List AccessGrant) (token : String) (g : AccessGrant),
      findBySessionToken grants token = some g → g.isVerified = true) ∧
    (∀ (g : AccessGrant) (log : List DownloadAuditLog) (now : Int)
      (bytesDownloaded : Nat) (ipAddress userAgent : String)
      (auditSaveFails : Bool),
      g.isSessionActive now = true →
      (recordDownload (some g) log now auditSaveFails bytesDownloaded
        ipAddress userAgent).2.2 = .ok () ∧
      (recordDownload (some g) log now auditSaveFails bytesDownloaded
        ipAddress userAgent).1 =
        some { g with lastActivityAt := some now }) := by
  refine ⟨?_, ?_, ?_⟩
  · intro log g action details ipAddress userAgent bytesDownloaded
    unfold createAuditLog
    simp
  · intro grants token g h
    have hp := List.find?_some h
    simp only [Bool.and_eq_true] at hp
    exact hp.2
  · intro g log now bytesDownloaded ipAddress userAgent auditSaveFails h
    unfold recordDownload
    simp [h]

/-- Approved, verified grant with an open download session last active
at instant 1000. -/
def gSession : AccessGrant :=
  { baseGrant with
    status := AccessStatus.APPROVED
    expiryDate := some 10000000
    isVerified := true
    verifiedAt := some 1000
    downloadSessionToken := some "sess-2"
    lastActivityAt := some 1000 }

/-- Witness for claim C9 at concrete inputs: the audit store is left
unchanged by a failing save, the lookup yields a verified grant, and
recordDownload succeeds with the audit save failing. -/
theorem c9_audit_failure_never_propagates_witness :
    createAuditLog true [] gSession DownloadAction.DOWNLOAD_COMPLETED
      "Document downloaded successfully. Size: 7 bytes." (some "ip")
      (some "ua") (some 7) = [] ∧
    gSession.isVerified = true ∧
    (recordDownload (some gSession) [] 2000 true 7 "ip" "ua").2.2 =
      .ok () ∧
    (recordDownload (some gSession) [] 2000 true 7 "ip" "ua").1 =
      some { gSession with lastActivityAt := some 2000 } :=
  ⟨c9_audit_failure_never_propagates.1 [] gSession
      DownloadAction.DOWNLOAD_COMPLETED
      "Document downloaded successfully. Size: 7 bytes." (some "ip")
      (some "ua") (some 7),
   c9_audit_failure_never_propagates.2.1 [gSession] "sess-2" gSession
     (by rfl),
   (c9_audit_failure_never_propagates.2.2 gSession [] 2000 7 "ip" "ua"
     true (by decide)).1,
   (c9_audit_failure_never_propagates.2.2 gSession [] 2000 7 "ip" "ua"
     true (by decide)).2⟩

/-- Claim C10: revokeAccessGrant rewrites only status, the revocation
message and actionCompletedAt; it leaves the whole session sub-state
and the expiry date untouched, and because isExpired is false on a
REVOKED grant, a verified session with recent activity still counts as
active after revocation and still passes validateDownloadSession and
the download checks while the document stays public. -/
theorem c10_revoke_keeps_session_alive (doc : DocumentFile)
    (g : AccessGrant) (now : Int) (msg : Option String) (t now2 : Int) :
    ∃ g', revokeAccessGrant (some doc) (some g) now msg =
        (some g', .ok ()) ∧
      g'.isVerified = g.isVerified ∧
      g'.verifiedAt = g.verifiedAt ∧
      g'.downloadSessionToken = g.downloadSessionToken ∧
      g'.lastActivityAt = g.lastActivityAt ∧
      g'.expiryDate = g.expiryDate ∧
      g'.otp = g.otp ∧
      g'.otpExpiryDate = g.otpExpiryDate ∧
      g'.otpAttempts = g.otpAttempts ∧
      g'.status = AccessStatus.REVOKED ∧
      g'.isExpired now2 = false ∧
      (g.isVerified = true → g.lastActivityAt = some t →
        now2 - t < 60 * 60 * 1000 →
        g'.isSessionActive now2 = true ∧
        (doc.visibilityStatus = VisibilityStatus.PUBLIC →
          (validateDownloadSession (some g') doc now2).2 =
            .ok (SESSION_TIMEOUT_MINUTES * 60, g.requestorEmail,
              doc.filename) ∧
          (getDocumentForDownload (some g') doc now2).2 = .ok doc)) := by
  refine ⟨_, rfl, rfl, rfl, rfl, rfl, rfl, rfl, rfl, rfl, rfl, rfl, ?_⟩
  intro hv hl hlt
  have hsa : AccessGrant.isSessionActive
      { g with
        status := AccessStatus.REVOKED
        revocationMessage := if strTruthy msg then msg else g.revocationMessage
        actionCompletedAt := some now } now2 = true := by
    unfold AccessGrant.isSessionActive AccessGrant.isExpired
    simp [hv, hl]
    omega
  refine ⟨hsa, ?_⟩
  intro hvis
  simp only [validateDownloadSession, getDocumentForDownload]
  rw [hsa, hvis]
  simp

/-- Witness for claim C10 at concrete inputs: revoking the grant with
an open session at instant 1500 leaves the session active at instant
2000 and both session endpoints still succeed. -/
theorem c10_revoke_keeps_session_alive_witness :
    ∃ g', revokeAccessGrant (some sampleDoc) (some gSession) 1500 none =
        (some g', .ok ()) ∧
      g'.lastActivityAt = gSession.lastActivityAt ∧
      g'.status = AccessStatus.REVOKED ∧
      g'.isSessionActive 2000 = true ∧
      (validateDownloadSession (some g') sampleDoc 2000).2 =
        .ok (SESSION_TIMEOUT_MINUTES * 60, gSession.requestorEmail,
          sampleDoc.filename) ∧
      (getDocumentForDownload (some g') sampleDoc 2000).2 =
        .ok sampleDoc := by
  obtain ⟨g', heq, _, _, _, hact, _, _, _, _, hstat, _, hrest⟩ :=
    c10_revoke_keeps_session_alive sampleDoc gSession 1500 none 1000 2000
  obtain ⟨hsa, hok⟩ := hrest rfl rfl (by decide)
  obtain ⟨hval, hdl⟩ := hok rfl
  exact ⟨g', heq, hact, hstat, hsa, hval, hdl⟩

end DocAccess
